import Mathlib

/-!
Verification of the DriveThruFiction calibre metadata-source plugin
(`src/DriveThruFiction/__init__.py`) against its natural-language
specification.  The Python code is shallowly embedded: strings are Lean
`String`s, parsed JSON payloads are values of an inductive `Json` type,
network transports are explicit functions from a `Request` to a result,
and every network round trip is recorded as an event in a trace.
Python exceptions become `Except String` errors carrying the diagnostic
text; Python truthiness is modelled explicitly.
-/

/-! ## Character and string primitives -/

/-- ASCII whitespace, the characters Python `str.split` and the regex
class matcher treat as whitespace for the inputs in scope. -/
def isPySpace (c : Char) : Bool :=
  c == ' ' || c == '\t' || c == '\n' || c == '\r' || c == '\x0b' || c == '\x0c'

/-- ASCII word character, the regex word class used by the boundary
assertions of the version-marker pattern. -/
def isWordChar (c : Char) : Bool :=
  c.isAlphanum || c == '_'

/-- `listEqHead n l` holds when `n` is an initial segment of `l`. -/
def listEqHead : List Char → List Char → Bool
  | [], _ => true
  | _ :: _, [] => false
  | a :: as, b :: bs => a == b && listEqHead as bs

/-- Substring test on character lists, modelling the Python `in`
operator on strings. -/
def listContainsSub (needle : List Char) : List Char → Bool
  | [] => listEqHead needle []
  | c :: rest => listEqHead needle (c :: rest) || listContainsSub needle rest

/-- Python `a in b` for strings. -/
def strContains (needle hay : String) : Bool :=
  listContainsSub needle.data hay.data

/-- Python `str.lower` (ASCII range, which covers every string the
plugin compares). -/
def pyLower (s : String) : String :=
  String.mk (s.data.map Char.toLower)

/-- Greedy span: the longest initial run of characters satisfying `p`,
and what follows it. -/
def spanList (p : Char → Bool) : List Char → List Char × List Char
  | [] => ([], [])
  | c :: r =>
    if p c then
      let (t, rest) := spanList p r
      (c :: t, rest)
    else ([], c :: r)

/-! ## URL percent-encoding (`urllib.parse.quote`, default safe `'/'`) -/

/-- UTF-8 byte sequence of a character, as natural numbers. -/
def utf8Bytes (c : Char) : List Nat :=
  let n := c.toNat
  if n < 128 then [n]
  else if n < 2048 then [192 + n / 64, 128 + n % 64]
  else if n < 65536 then [224 + n / 4096, 128 + (n / 64) % 64, 128 + n % 64]
  else [240 + n / 262144, 128 + (n / 4096) % 64, 128 + (n / 64) % 64, 128 + n % 64]

/-- Uppercase hexadecimal digit. -/
def hexDigit (n : Nat) : Char :=
  if n < 10 then Char.ofNat (48 + n) else Char.ofNat (55 + n)

/-- Bytes `quote` leaves unescaped: ALPHA, DIGIT, `_.-~` and the
default safe character `/`. -/
def isSafeByte (n : Nat) : Bool :=
  (48 ≤ n && n ≤ 57) || (65 ≤ n && n ≤ 90) || (97 ≤ n && n ≤ 122) ||
  n == 95 || n == 46 || n == 45 || n == 126 || n == 47

/-- Percent-encode a single byte. -/
def quoteByte (n : Nat) : List Char :=
  if isSafeByte n then [Char.ofNat n] else ['%', hexDigit (n / 16), hexDigit (n % 16)]

/-- `urllib.parse.quote` with the default `safe='/'`. -/
def urlQuote (s : String) : String :=
  String.mk (((s.data.map utf8Bytes).flatten.map quoteByte).flatten)

/-! ## JSON values (the result of `json.loads`) -/

/-- Parsed JSON payloads.  Numbers are modelled as integers, which covers
every numeric field the plugin touches (catalog ids). -/
inductive Json where
  | null : Json
  | bool : Bool → Json
  | num : Int → Json
  | str : String → Json
  | arr : List Json → Json
  | obj : List (String × Json) → Json

/-- Python truthiness of a JSON value (`if x:`). -/
def Json.truthy : Json → Bool
  | .null => false
  | .bool b => b
  | .num n => n != 0
  | .str s => s != ""
  | .arr xs => !xs.isEmpty
  | .obj fs => !fs.isEmpty

/-- Python `d.get(k, default)`: succeeds on a dict, raises
`AttributeError` (an error in the embedding) on anything else. -/
def pyGetD (j : Json) (k : String) (d : Json) : Except String Json :=
  match j with
  | .obj fs => .ok ((fs.lookup k).getD d)
  | _ => .error "AttributeError: object has no attribute get"

/-- Python `a or b` on JSON values: `a` if truthy, else `b`. -/
def jOr (a b : Json) : Json :=
  if a.truthy then a else b

/-- Python `str(x)` for the values the plugin stringifies (catalog ids
and image paths, which are strings or numbers in every payload; the
container branches are never exercised by the plugin's data). -/
def pyStr : Json → String
  | .str s => s
  | .num n => toString n
  | .bool true => "True"
  | .bool false => "False"
  | .null => "None"
  | .arr _ => "<repr>"
  | .obj _ => "<repr>"

/-! ## `_clean_title` (lines 292-299)

The two `re.sub` calls are embedded as explicit scanners with the exact
semantics of the patterns on the plugin's inputs:

* pattern 1, `(?i)\b(v|ver|vol)\.?\s*\d+(\.\d+)*\b`, case-insensitive,
  leftmost match, alternatives tried in order, greedy quantifiers with
  the single backtracking step the trailing `\b` can force (dropping the
  final `(\.\d+)` group, after which the next character is a dot and the
  boundary always holds);
* pattern 2, `[\(\[].*?[\)\]]`, leftmost match, non-greedy: from an
  opening `(` or `[` to the first subsequent `)` or `]`, with `.` not
  crossing a newline.

Both scanners are fuelled structural recursions; every call supplies
fuel strictly larger than the number of scan steps (each step consumes
at least one character), so the fuel never runs out. -/

/-- Greedy `(\.\d+)*`: the sizes of the maximal run of dot-digit groups
and the remainder.  Fuel bounds the recursion; each group consumes at
least two characters. -/
def dotGroups : Nat → List Char → List Nat × List Char
  | 0, l => ([], l)
  | f + 1, l =>
    match l with
    | '.' :: rest =>
      let (ds, r2) := spanList Char.isDigit rest
      if ds.isEmpty then ([], l)
      else
        let (gs, r3) := dotGroups f r2
        ((ds.length + 1) :: gs, r3)
    | _ => ([], l)

/-- The `\b` assertion immediately after a digit: end of input or a
non-word character. -/
def wordBoundary (l : List Char) : Bool :=
  match l with
  | [] => true
  | c :: _ => !(isWordChar c)

/-- Match `\.?\s*\d+(\.\d+)*\b` at the head of `l`; returns the number
of characters consumed.  If the boundary fails after the maximal groups,
the engine backtracks exactly one `(\.\d+)` group (the position then
precedes a dot, so `\b` holds); no other backtracking can succeed, since
any shorter `\d+` run is followed by a digit. -/
def matchAfterKeyword (l : List Char) : Option Nat :=
  let (dotN, l1) : Nat × List Char :=
    match l with
    | '.' :: r => (1, r)
    | _ => (0, l)
  let (sp, l2) := spanList isPySpace l1
  let (ds, l3) := spanList Char.isDigit l2
  if ds.isEmpty then none
  else
    let (gs, l4) := dotGroups (l3.length + 1) l3
    if wordBoundary l4 then some (dotN + sp.length + ds.length + gs.sum)
    else
      match gs with
      | [] => none
      | _ :: _ => some (dotN + sp.length + ds.length + gs.dropLast.sum)

/-- Strip a case-insensitive literal keyword (given in lowercase) from
the head of `l`. -/
def ciStrip : List Char → List Char → Option (List Char)
  | [], l => some l
  | _ :: _, [] => none
  | p :: ps, c :: cs => if Char.toLower c == p then ciStrip ps cs else none

/-- Try one alternative of `(v|ver|vol)` followed by the numeric tail. -/
def tryKeyword (pre : List Char) (l : List Char) : Option Nat :=
  match ciStrip pre l with
  | some rest => (matchAfterKeyword rest).map (· + pre.length)
  | none => none

/-- Match the whole version-marker pattern at the current position.
`prevWord` says whether the preceding character is a word character
(the leading `\b`); alternatives are tried in the pattern's order. -/
def verMatchAt (prevWord : Bool) (l : List Char) : Option Nat :=
  if prevWord then none
  else
    match tryKeyword ['v'] l with
    | some n => some n
    | none =>
      match tryKeyword ['v', 'e', 'r'] l with
      | some n => some n
      | none => tryKeyword ['v', 'o', 'l'] l

/-- `re.sub` of the version-marker pattern with the empty replacement:
scan left to right, remove each match, resume after it.  A match always
ends in a digit, so the boundary state after a removal is `true`. -/
def subVersion : Nat → Bool → List Char → List Char
  | 0, _, l => l
  | _ + 1, _, [] => []
  | f + 1, pw, c :: r =>
    match verMatchAt pw (c :: r) with
    | some n => subVersion f true ((c :: r).drop n)
    | none => c :: subVersion f (isWordChar c) r

/-- Index of the first `)` or `]` in `l`, provided no newline precedes
it (`.` does not match a newline). -/
def findClose : List Char → Option Nat
  | [] => none
  | c :: r =>
    if c == ')' || c == ']' then some 0
    else if c == '\n' then none
    else (findClose r).map (· + 1)

/-- `re.sub` of `[\(\[].*?[\)\]]` with the empty replacement. -/
def subBrackets : Nat → List Char → List Char
  | 0, l => l
  | _ + 1, [] => []
  | f + 1, c :: r =>
    if c == '(' || c == '[' then
      match findClose r with
      | some j => subBrackets f (r.drop (j + 1))
      | none => c :: subBrackets f r
    else c :: subBrackets f r

/-- Python `str.split()` on whitespace runs, dropping empty pieces. -/
def pySplitChars : Nat → List Char → List (List Char)
  | 0, _ => []
  | _ + 1, [] => []
  | f + 1, c :: r =>
    if isPySpace c then pySplitChars f r
    else
      let (w, rest) := spanList (fun x => !(isPySpace x)) (c :: r)
      w :: pySplitChars f rest

/-- `title.split()` as a list of strings. -/
def pySplitStr (s : String) : List String :=
  (pySplitChars (s.data.length + 1) s.data).map fun w => String.mk w

/-- `_clean_title` on a non-empty string: strip version markers, strip
bracketed and parenthesized spans, collapse whitespace. -/
def clean_title_str (s : String) : String :=
  let l1 := subVersion (s.data.length + 1) false s.data
  let l2 := subBrackets (l1.length + 1) l1
  String.intercalate " " ((pySplitChars (l2.length + 1) l2).map fun w => String.mk w)

/-- `_clean_title` including the `if not title: return ""` guard, on a
possibly absent title (`None` is `none`). -/
def clean_title (title : Option String) : String :=
  match title with
  | none => ""
  | some s => if s == "" then "" else clean_title_str s

/-! ## `_create_query` (lines 283-290) -/

/-- `_create_query(title, authors)`: join the truthy title and, when the
author list is non-empty, its first element (appended unconditionally,
even when that element is the empty string). -/
def create_query (title : Option String) (authors : Option (List String)) : String :=
  let tokens : List String :=
    (match title with
     | some t => if t == "" then [] else [t]
     | none => []) ++
    (match authors with
     | some (a :: _) => [a]
     | _ => [])
  String.intercalate " " tokens

/-- Python truthiness of the `authors` argument (`if authors:`). -/
def authorsTruthy : Option (List String) → Bool
  | some (_ :: _) => true
  | _ => false

/-- The comparison `clean_title != title` in line 159: a string never
equals `None`. -/
def neTitle (ct : String) (title : Option String) : Bool :=
  match title with
  | none => true
  | some t => ct != t

/-! ## Transports and the fetcher (`_fetch_url`, lines 70-94) -/

/-- One network request: the URL, the configured `cf_clearance`
credential (read from the same preference key by both strategies), and
the timeout in seconds. -/
structure Request where
  url : String
  credential : Option String
  timeout : Nat
deriving DecidableEq

/-- A network round-trip event: which transport strategy was invoked,
and with what request. -/
inductive Ev where
  | session : Request → Ev
  | curl : Request → Ev
deriving DecidableEq

/-- `'403' in msg or 'Forbidden' in msg` (line 92). -/
def isAccessDenied (msg : String) : Bool :=
  strContains "403" msg || strContains "Forbidden" msg

/-- `_fetch_url` over abstract transport strategies `S` (the mechanize
browser session, lines 72-88) and `C` (`_fetch_via_curl`): invoke the
session strategy; on an exception whose text signals access denial,
return the curl strategy's outcome; otherwise re-raise.  The second
component is the trace of transport invocations. -/
def fetch_url (S C : Request → Except String String) (url : String)
    (cred : Option String) (t : Nat) : Except String String × List Ev :=
  let r : Request := ⟨url, cred, t⟩
  match S r with
  | .ok body => (.ok body, [Ev.session r])
  | .error msg =>
    if isAccessDenied msg then (C r, [Ev.session r, Ev.curl r])
    else (.error msg, [Ev.session r])

/-- The curl transport composed with `json.loads`, as `_api_search` and
`_get_product_details` consume it: a subprocess failure and a JSON parse
failure are both exceptions, merged into this abstract transport's error
case. -/
abbrev CurlNet := Request → Except String Json

/-! ## `_api_search` (lines 190-220) -/

/-- One filtered search result, `{'id': pid, 'name': name}`; the name is
necessarily a string (the code lowercases it), the id is any truthy
JSON value. -/
structure JMatch where
  id : Json
  name : String

/-- The configured block term of the marketing-edition filter. -/
def blockTerm : List Char := "fantasy grounds".data

/-- The search endpoint URL of line 200: fixed `groupId=25`,
URL-encoded keyword, fixed `siteId=70`. -/
def searchUrl (query : String) : String :=
  "https://api.drivethrufiction.com/api/vBeta/search_ahead?groupId=25&keyword="
    ++ urlQuote query ++ "&siteId=70"

/-- Process one element of the response's `data` list (lines 210-219):
read `attributes.entityId` and `attributes.name`; keep the pair when
both are truthy and the lowercased name does not contain the block
term.  Non-dict items or attributes raise, and so does lowercasing a
non-string name. -/
def parseItem (item : Json) : Except String (Option JMatch) :=
  match item with
  | .obj fs =>
    match (fs.lookup "attributes").getD (.obj []) with
    | .obj afs =>
      let pid := (afs.lookup "entityId").getD .null
      let nameJ := (afs.lookup "name").getD .null
      if pid.truthy && nameJ.truthy then
        match nameJ with
        | .str s =>
          if listContainsSub blockTerm (pyLower s).data then .ok none
          else .ok (some ⟨pid, s⟩)
        | _ => .error "AttributeError: lower"
      else .ok none
    | _ => .error "AttributeError: get"
  | _ => .error "AttributeError: get"

/-- Fold the `data` list in order; the first raising item aborts. -/
def collectMatches : List Json → Except String (List JMatch)
  | [] => .ok []
  | it :: rest =>
    match parseItem it with
    | .error e => .error e
    | .ok none => collectMatches rest
    | .ok (some m) =>
      match collectMatches rest with
      | .error e => .error e
      | .ok ms => .ok (m :: ms)

/-- Lines 208-220: `if 'data' in data:` followed by the item loop.  The
non-dict branches reproduce what the Python `in` test and subscript do
on such payloads (membership on lists and substring on strings, then a
`TypeError`); none of them can yield a match. -/
def parseSearchItems (root : Json) : Except String (List JMatch) :=
  match root with
  | .obj fs =>
    match fs.lookup "data" with
    | none => .ok []
    | some (.arr items) => collectMatches items
    | some (.str "") => .ok []
    | some (.str _) => .error "AttributeError: get"
    | some (.obj []) => .ok []
    | some (.obj (_ :: _)) => .error "AttributeError: get"
    | some _ => .error "TypeError: not iterable"
  | .arr xs =>
    if xs.any (fun j => match j with | .str s => s == "data" | _ => false)
    then .error "TypeError: list indices" else .ok []
  | .str s =>
    if listContainsSub "data".data s.data then .error "TypeError: string indices"
    else .ok []
  | _ => .error "TypeError: argument not iterable"

/-- The pure outcome of `_api_search` for one query: fetch the search
URL via curl (line 204) and parse/filter the response. -/
def apiSearchFn (C : CurlNet) (cred : Option String) (t : Nat) (q : String) :
    Except String (List JMatch) :=
  match C ⟨searchUrl q, cred, t⟩ with
  | .error e => .error e
  | .ok root => parseSearchItems root

/-- `_api_search` with its network trace: the one and only round trip it
issues is a curl invocation. -/
def api_search (C : CurlNet) (cred : Option String) (q : String) (t : Nat) :
    Except String (List JMatch) × List Ev :=
  (apiSearchFn C cred t q, [Ev.curl ⟨searchUrl q, cred, t⟩])

/-! ## `_get_product_details` (lines 222-281) -/

/-- A parsed publication date, from the ISO-8601-with-offset string.
Modelled from the spec: calibre's `parse_date` lives in the host
application, not in this repository; the spec describes the field as
"parsed from an ISO-8601-with-offset string". -/
structure PDate where
  year : Nat
  month : Nat
  day : Nat
  hour : Nat
  minute : Nat
  second : Nat
  offNeg : Bool
  offHour : Nat
  offMinute : Nat
deriving DecidableEq

/-- Two decimal digits. -/
def twoDigits (a b : Char) : Option Nat :=
  if a.isDigit && b.isDigit then some ((a.toNat - 48) * 10 + (b.toNat - 48))
  else none

/-- Modelled from the spec: calibre's `parse_date` (external to this
repository) applied to an ISO-8601 timestamp with a numeric UTC offset,
`YYYY-MM-DDTHH:MM:SS(+|-)HH:MM`; any other shape fails to parse. -/
def parseDate (s : String) : Option PDate :=
  match s.data with
  | [y1, y2, y3, y4, '-', m1, m2, '-', d1, d2, 'T',
     h1, h2, ':', n1, n2, ':', s1, s2, sg, o1, o2, ':', p1, p2] =>
    if y1.isDigit && y2.isDigit && y3.isDigit && y4.isDigit
        && (sg == '+' || sg == '-') then
      match twoDigits m1 m2, twoDigits d1 d2, twoDigits h1 h2,
            twoDigits n1 n2, twoDigits s1 s2, twoDigits o1 o2, twoDigits p1 p2 with
      | some mo, some da, some ho, some mi, some se, some oh, some om =>
        if 1 ≤ mo ∧ mo ≤ 12 ∧ 1 ≤ da ∧ da ≤ 31 ∧ ho ≤ 23 ∧ mi ≤ 59 ∧ se ≤ 59 then
          some ⟨(y1.toNat - 48) * 1000 + (y2.toNat - 48) * 100
                  + (y3.toNat - 48) * 10 + (y4.toNat - 48),
                mo, da, ho, mi, se, sg == '-', oh, om⟩
        else none
      | _, _, _, _, _, _, _ => none
    else none
  | _ => none

/-- Lines 264-271: `if date_str:`, then `parse_date` inside a bare
`try/except` whose failure leaves the field unset.  Calling `parse_date`
on a truthy non-string raises and is absorbed the same way, so the
whole step is a total function. -/
def pyDate (dateJ : Json) : Option PDate :=
  if dateJ.truthy then
    match dateJ with
    | .str s => parseDate s
    | _ => none
  else none

/-- The populated metadata record handed to the result queue: `title`
and `authors` as the Python code computed them (JSON values), the
`drivethrufiction` identifier, `comments`, and the optional publisher
and publication date. -/
structure PyMetadata where
  title : Json
  authors : Json
  identifier : String
  comments : Json
  publisher : Option Json
  pubdate : Option PDate

/-- Lines 255-261: scan the `included` list in order; the first entry of
type `Publisher` with a truthy `attributes.name` supplies the publisher
and stops the scan; a `Publisher` entry with a falsy name does not
break the loop. -/
def scanPubList : List Json → Except String (Option Json)
  | [] => .ok none
  | inc :: rest =>
    match inc with
    | .obj fs =>
      match (fs.lookup "type").getD .null with
      | .str "Publisher" =>
        match (fs.lookup "attributes").getD (.obj []) with
        | .obj pfs =>
          let nm := (pfs.lookup "name").getD .null
          if nm.truthy then .ok (some nm) else scanPubList rest
        | _ => .error "AttributeError: get"
      | _ => scanPubList rest
    | _ => .error "AttributeError: get"

/-- `if 'included' in root:` followed by the loop over
`root['included']`.  By the time this runs `root` is known to be a
dict; the other branches mirror the Python `in` test on non-dict
payloads all the same. -/
def scanIncluded (root : Json) : Except String (Option Json) :=
  match root with
  | .obj fs =>
    match fs.lookup "included" with
    | none => .ok none
    | some (.arr incs) => scanPubList incs
    | some (.str "") => .ok none
    | some (.str _) => .error "AttributeError: get"
    | some (.obj []) => .ok none
    | some (.obj (_ :: _)) => .error "AttributeError: get"
    | some _ => .error "TypeError: not iterable"
  | .arr xs =>
    if xs.any (fun j => match j with | .str s => s == "included" | _ => false)
    then .error "TypeError: list indices" else .ok none
  | .str s =>
    if listContainsSub "included".data s.data then .error "TypeError: string indices"
    else .ok none
  | _ => .error "TypeError: argument not iterable"

/-- The image base URL of line 278. -/
def imageBase : String := "https://www.drivethrufiction.com/images/"

/-- The record-mapping body of `_get_product_details` (lines 230-281),
applied to the parsed detail payload.  Returns the metadata record and,
when an image path is present, the cover-cache entry
`(str(product_id), cover_url)` that `cache_cover_url` registers.  An
error is a `MappingError`: the payload does not have the expected
envelope shape. -/
def mapDetail (product_id : Json) (root : Json) :
    Except String (PyMetadata × Option (String × String)) := do
  let data ← pyGetD root "data" (.obj [])
  let attrs ← pyGetD data "attributes" (.obj [])
  let descObj ← pyGetD attrs "description" (.obj [])
  let descName ← pyGetD descObj "name" .null
  let attrName ← pyGetD attrs "name" .null
  let title := jOr descName (jOr attrName (Json.str "Unknown"))
  let authors0 ← pyGetD attrs "authors" (.arr [])
  let authors := if authors0.truthy then authors0 else Json.arr [Json.str "Unknown"]
  let comments ← pyGetD descObj "description" (.str "")
  let publisher ← scanIncluded root
  let dateJ ← pyGetD attrs "dateAvailable" .null
  let pubdate := pyDate dateJ
  let imgJ ← pyGetD attrs "image" .null
  let cover := if imgJ.truthy then some (pyStr product_id, imageBase ++ pyStr imgJ)
               else none
  return (⟨title, authors, pyStr product_id, comments, publisher, pubdate⟩, cover)

/-- The detail endpoint URL of line 226. -/
def detailUrl (product_id : Json) : String :=
  "https://api.drivethrufiction.com/api/vBeta/products/" ++ pyStr product_id

/-- `_get_product_details` with its network trace: one curl round trip
against the detail endpoint (line 229), then the record mapping. -/
def get_product_details (C : CurlNet) (cred : Option String) (product_id : Json)
    (t : Nat) : Except String (PyMetadata × Option (String × String)) × List Ev :=
  let r : Request := ⟨detailUrl product_id, cred, t⟩
  match C r with
  | .error e => (.error e, [Ev.curl r])
  | .ok root => (mapDetail product_id root, [Ev.curl r])

/-! ## The search cascade of `identify` (lines 131-188) -/

/-- Run the remaining strategies only when the accumulated `matches`
list is empty; an exception or a non-empty result short-circuits.  This
is the functional rendering of the mutable `matches` variable: `a` is
the state after the strategies run so far (result and issued queries),
`b` the contribution of the next strategy block. -/
def thenIfEmpty (a b : Except String (List JMatch) × List String) :
    Except String (List JMatch) × List String :=
  match a with
  | (.ok [], tr) => (b.1, tr ++ b.2)
  | other => other

/-- Issue one search round trip for a query. -/
def runSearch (S : String → Except String (List JMatch)) (q : String) :
    Except String (List JMatch) × List String :=
  (S q, [q])

/-- Strategy 2 (lines 150-154): only when the author list is truthy;
rebuild the query with no authors and search it when it differs from
the strategy-1 query. -/
def strat2 (S : String → Except String (List JMatch)) (title : Option String)
    (authors : Option (List String)) (query : String) :
    Except String (List JMatch) × List String :=
  if authorsTruthy authors then
    let q2 := create_query title (some [])
    if q2 != query then runSearch S q2 else (.ok [], [])
  else (.ok [], [])

/-- Strategies 3 and 4 (lines 156-169): search the cleaned title when it
differs from the original; on zero matches, search its first four words
when it has more than four — strategy 4 is nested inside strategy 3's
branch. -/
def strat34 (S : String → Except String (List JMatch)) (title : Option String) :
    Except String (List JMatch) × List String :=
  let ct := clean_title title
  if neTitle ct title then
    thenIfEmpty (runSearch S ct)
      (let ws := pySplitStr ct
       if ws.length > 4 then runSearch S (String.intercalate " " (ws.take 4))
       else (.ok [], []))
  else (.ok [], [])

/-- The search portion of `identify` (lines 138-169) over an abstract
per-query search outcome `S`: the strategy-1 query, then strategies 2,
3 and 4, each attempted only while no matches have been found; the
second component is the list of queries for which a network round trip
was issued, in order. -/
def identifySearch (S : String → Except String (List JMatch)) (title : Option String)
    (authors : Option (List String)) : Except String (List JMatch) × List String :=
  let query := create_query title authors
  if query == "" then (.ok [], [])
  else
    thenIfEmpty (runSearch S query)
      (thenIfEmpty (strat2 S title authors query) (strat34 S title))

/-- The candidate queries of the cascade, in order, as the spec's Query
Builder describes them: strategy 1 always; strategy 2 when the author
list is truthy and the rebuilt query differs; strategy 3 when the
cleaned title differs from the original; strategy 4 — only inside
strategy 3's branch — when the cleaned title has more than four
words. -/
def candidates (title : Option String) (authors : Option (List String)) :
    List String :=
  let query := create_query title authors
  let ct := clean_title title
  let ws := pySplitStr ct
  [query]
    ++ (if authorsTruthy authors && (create_query title (some []) != query)
        then [create_query title (some [])] else [])
    ++ (if neTitle ct title then
          [ct] ++ (if ws.length > 4
                   then [String.intercalate " " (ws.take 4)] else [])
        else [])

/-- Reference form of the cascade: try the candidates in order, stop at
the first exception or the first non-empty match list. -/
def cascadeRun (S : String → Except String (List JMatch)) :
    List String → Except String (List JMatch) × List String
  | [] => (.ok [], [])
  | q :: qs =>
    match S q with
    | .error e => (.error e, [q])
    | .ok [] =>
      let (r, tr) := cascadeRun S qs
      (r, q :: tr)
    | .ok (m :: ms) => (.ok (m :: ms), [q])

/-- Wrap `_get_product_details` the way `identify` consumes it (lines
184-188): an exception is logged and drops the result. -/
def runDetails (C : CurlNet) (cred : Option String) (product_id : Json) (t : Nat) :
    Option (PyMetadata × Option (String × String)) × List Ev :=
  match get_product_details C cred product_id t with
  | (.error _, evs) => (none, evs)
  | (.ok x, evs) => (some x, evs)

/-- `identify` (lines 131-188): use the `drivethrufiction` identifier
when present and truthy; otherwise build the query, return immediately
when it is empty, run the search cascade (any exception is logged and
ends the call), and fetch the details of the first match.  Returns the
delivered record (with its cover-cache entry) and the network trace. -/
def identify (C : CurlNet) (cred : Option String) (ids : Option Json)
    (title : Option String) (authors : Option (List String)) (t : Nat) :
    Option (PyMetadata × Option (String × String)) × List Ev :=
  let plugin_id := ids.getD .null
  if plugin_id.truthy then runDetails C cred plugin_id t
  else
    let query := create_query title authors
    if query == "" then (none, [])
    else
      let (res, qs) := identifySearch (apiSearchFn C cred t) title authors
      let evs := qs.map fun q => Ev.curl ⟨searchUrl q, cred, t⟩
      match res with
      | .error _ => (none, evs)
      | .ok [] => (none, evs)
      | .ok (m :: _) =>
        let (r2, evs2) := runDetails C cred m.id t
        (r2, evs ++ evs2)

/-! ## The cover cache (lines 316-326) -/

/-- `cache_cover_url` (lines 323-326): the `_cached_cover` dict is a
lazily created attribute of the plugin instance, here an association
list threaded explicitly; assignment prepends, and lookups read the
newest binding first, so this models dict overwrite. -/
def cache_cover_url (cache : List (String × String)) (url product_id : String) :
    List (String × String) :=
  (product_id, url) :: cache

/-- `get_cached_cover_url` (lines 316-321): read the `drivethrufiction`
identifier; when truthy, look it up in the instance's cache. -/
def get_cached_cover_url (cache : List (String × String))
    (plugin_id : Option String) : Option String :=
  match plugin_id with
  | some pid => if pid == "" then none else cache.lookup pid
  | none => none

/-! ## Concrete transports and payloads for the witnesses -/

/-- A session strategy blocked by the anti-bot defense. -/
def sessionDenied : Request → Except String String :=
  fun _ => .error "HTTP Error 403: Forbidden"

/-- A session strategy failing with an unrelated network error. -/
def sessionTimeout : Request → Except String String :=
  fun _ => .error "urlopen error timed out"

/-- A curl strategy that succeeds. -/
def curlOk : Request → Except String String :=
  fun _ => .ok "curl-body"

/-- A curl transport whose every response is the empty JSON object: all
searches parse to zero matches, all detail fetches map to a sentinel
record. -/
def emptyNet : CurlNet := fun _ => .ok (Json.obj [])

/-- An abstract search outcome with zero matches for every query. -/
def searchAllEmpty : String → Except String (List JMatch) := fun _ => .ok []

/-- An abstract search outcome that matches the strategy-1 query
`"Dracula"` and nothing else. -/
def searchHitFirst : String → Except String (List JMatch) := fun q =>
  if q == "Dracula" then .ok [⟨Json.str "d1", "Dracula"⟩] else .ok []

/-- The search response of the block-term example: a match named
`"Grimoire - Fantasy Grounds Edition"` followed by one named
`"Grimoire"`. -/
def grimoireRoot : Json :=
  Json.obj [("data", Json.arr
    [Json.obj [("attributes", Json.obj
       [("entityId", Json.str "g1"),
        ("name", Json.str "Grimoire - Fantasy Grounds Edition")])],
     Json.obj [("attributes", Json.obj
       [("entityId", Json.str "g2"),
        ("name", Json.str "Grimoire")])]])]

/-- A transport serving `grimoireRoot` for the `"Grimoire"` search and
an empty object for every other URL (in particular the detail fetch). -/
def grimoireNet : CurlNet := fun r =>
  if r.url == searchUrl "Grimoire" then .ok grimoireRoot else .ok (Json.obj [])

/-- The record mapped from an empty detail payload for product `"g2"`. -/
def grimoireRec : PyMetadata :=
  ⟨Json.str "Unknown", Json.arr [Json.str "Unknown"], "g2", Json.str "",
   none, none⟩

/-- The detail envelope of the round-trip example: nested description
name `"Dracula"`, one author, an availability date, and an `included`
entry of type `Publisher`. -/
def draculaRoot : Json :=
  Json.obj
    [("data", Json.obj
       [("attributes", Json.obj
          [("description", Json.obj [("name", Json.str "Dracula")]),
           ("authors", Json.arr [Json.str "Bram Stoker"]),
           ("dateAvailable", Json.str "1897-05-26T00:00:00-00:00")])]),
     ("included", Json.arr
       [Json.obj [("type", Json.str "Publisher"),
                  ("attributes", Json.obj
                     [("name", Json.str "Archibald Constable")])]])]

/-- The record the mapper produces from `draculaRoot`. -/
def draculaRec : PyMetadata :=
  ⟨Json.str "Dracula", Json.arr [Json.str "Bram Stoker"], "drac1",
   Json.str "", some (Json.str "Archibald Constable"),
   some ⟨1897, 5, 26, 0, 0, 0, true, 0, 0⟩⟩

/-- A detail envelope whose `dateAvailable` is present but not a
parseable timestamp. -/
def badDateRoot : Json :=
  Json.obj [("data", Json.obj
    [("attributes", Json.obj [("dateAvailable", Json.str "not-a-date")])])]

/-- A detail envelope carrying only an image path. -/
def coverRoot : Json :=
  Json.obj [("data", Json.obj
    [("attributes", Json.obj [("image", Json.str "8957/240640.jpg")])])]

/-- A transport serving `coverRoot` for every URL. -/
def coverNet : CurlNet := fun _ => .ok coverRoot

/-- The sentinel record mapped from `coverRoot` for product `"55"`. -/
def coverRec : PyMetadata :=
  ⟨Json.str "Unknown", Json.arr [Json.str "Unknown"], "55", Json.str "",
   none, none⟩

/-- Whether a trace event is a curl-strategy invocation. -/
def isCurlEv : Ev → Bool
  | .curl _ => true
  | .session _ => false

/-- The publication date carried by a mapping outcome. -/
def pubdateOf (r : Except String (PyMetadata × Option (String × String))) :
    Option PDate :=
  match r with
  | .ok (rec, _) => rec.pubdate
  | .error _ => none

/-- Whether a JSON value is a dict. -/
def isObjJ : Json → Bool
  | .obj _ => true
  | _ => false

/-- Python falsiness of the `title` argument (`if not title:`). -/
def titleFalsy : Option String → Bool
  | none => true
  | some t => t == ""

/-- Python falsiness of the `authors` argument. -/
def authorsFalsy (authors : Option (List String)) : Bool :=
  !(authorsTruthy authors)

/-! ## Structure of the cascade: helper lemmas -/

/-- `runSearch` is the one-candidate cascade. -/
theorem runSearch_eq_cascadeRun (S : String → Except String (List JMatch)) (q : String) :
    runSearch S q = cascadeRun S [q] := by
  unfold runSearch cascadeRun
  cases h : S q with
  | error e => simp
  | ok ms => cases ms <;> simp [cascadeRun]

theorem cascadeRun_append (S : String → Except String (List JMatch)) (l1 l2 : List String) :
    cascadeRun S (l1 ++ l2) = thenIfEmpty (cascadeRun S l1) (cascadeRun S l2) := by
  induction l1 with
  | nil => simp [cascadeRun, thenIfEmpty]
  | cons q qs ih =>
    simp only [List.cons_append, cascadeRun]
    cases h : S q with
    | error e => simp [thenIfEmpty]
    | ok ms =>
      cases ms with
      | nil =>
        rcases h2 : cascadeRun S qs with ⟨r2, t2⟩
        rcases h3 : cascadeRun S (qs ++ l2) with ⟨r3, t3⟩
        rw [h2, h3] at ih
        cases r2 with
        | error e =>
          simp only [thenIfEmpty, Prod.mk.injEq] at ih
          simp [thenIfEmpty, ih.1, ih.2]
        | ok ms2 =>
          cases ms2 with
          | nil =>
            simp only [thenIfEmpty] at ih ⊢
            rcases h4 : cascadeRun S l2 with ⟨r4, t4⟩
            rw [h4] at ih
            simp only [Prod.mk.injEq] at ih
            simp [ih.1, ih.2]
          | cons m ms' =>
            simp only [thenIfEmpty, Prod.mk.injEq] at ih
            simp [thenIfEmpty, ih.1, ih.2]
      | cons m ms' => simp [thenIfEmpty]

theorem strat2_eq_cascadeRun (S : String → Except String (List JMatch))
    (title : Option String) (authors : Option (List String)) :
    strat2 S title authors (create_query title authors) =
      cascadeRun S
        (if authorsTruthy authors
            && (create_query title (some []) != create_query title authors)
         then [create_query title (some [])] else []) := by
  unfold strat2
  by_cases ha : authorsTruthy authors
  · by_cases hq : create_query title (some []) != create_query title authors
    · simp [ha, hq, runSearch_eq_cascadeRun]
    · simp [ha, hq, cascadeRun]
  · simp [ha, cascadeRun]

theorem thenIfEmpty_ok_nil (a : Except String (List JMatch) × List String) :
    thenIfEmpty a (Except.ok [], []) = a := by
  rcases a with ⟨r, tr⟩
  cases r with
  | error e => simp [thenIfEmpty]
  | ok ms => cases ms <;> simp [thenIfEmpty]

theorem strat34_eq_cascadeRun (S : String → Except String (List JMatch))
    (title : Option String) :
    strat34 S title =
      cascadeRun S
        (if neTitle (clean_title title) title then
           [clean_title title]
             ++ (if (pySplitStr (clean_title title)).length > 4
                 then [String.intercalate " " ((pySplitStr (clean_title title)).take 4)]
                 else [])
         else []) := by
  unfold strat34
  by_cases hn : neTitle (clean_title title) title
  · by_cases hw : (pySplitStr (clean_title title)).length > 4
    · simp only [hn, hw, if_true, if_pos]
      rw [cascadeRun_append, runSearch_eq_cascadeRun, runSearch_eq_cascadeRun]
    · simp only [hn, hw, if_true, if_pos, if_neg, not_false_iff]
      rw [thenIfEmpty_ok_nil, runSearch_eq_cascadeRun]
      simp
  · simp [hn, cascadeRun]

theorem thenIfEmpty_assoc (a b c : Except String (List JMatch) × List String) :
    thenIfEmpty (thenIfEmpty a b) c = thenIfEmpty a (thenIfEmpty b c) := by
  rcases a with ⟨r, tr⟩
  cases r with
  | error e => simp [thenIfEmpty]
  | ok ms =>
    cases ms with
    | cons m ms2 => simp [thenIfEmpty]
    | nil =>
      rcases b with ⟨rb, tb⟩
      cases rb with
      | error e => simp [thenIfEmpty]
      | ok msb => cases msb <;> simp [thenIfEmpty]

theorem identifySearch_eq_cascadeRun (S : String → Except String (List JMatch))
    (title : Option String) (authors : Option (List String)) :
    identifySearch S title authors =
      if create_query title authors == "" then (.ok [], [])
      else cascadeRun S (candidates title authors) := by
  unfold identifySearch candidates
  by_cases hq : create_query title authors == ""
  · simp [hq]
  · simp only [hq, if_neg, Bool.not_eq_true, if_false]
    rw [cascadeRun_append, cascadeRun_append, runSearch_eq_cascadeRun,
      strat2_eq_cascadeRun, strat34_eq_cascadeRun, thenIfEmpty_assoc]

theorem cascadeRun_allEmpty (S : String → Except String (List JMatch))
    (h : ∀ q, S q = .ok []) (qs : List String) :
    cascadeRun S qs = (.ok [], qs) := by
  induction qs with
  | nil => simp [cascadeRun]
  | cons q rest ih => simp [cascadeRun, h q, ih]

theorem cascadeRun_dropLast_empty (S : String → Except String (List JMatch))
    (qs : List String) :
    ∀ q ∈ (cascadeRun S qs).2.dropLast, S q = .ok [] := by
  induction qs with
  | nil => simp [cascadeRun]
  | cons q rest ih =>
    intro q' hq'
    simp only [cascadeRun] at hq'
    cases h : S q with
    | error e => rw [h] at hq'; simp at hq'
    | ok ms =>
      cases ms with
      | cons m ms2 => rw [h] at hq'; simp at hq'
      | nil =>
        rw [h] at hq'
        rcases h2 : cascadeRun S rest with ⟨r2, t2⟩
        rw [h2] at hq'
        simp only at hq'
        cases t2 with
        | nil => simp at hq'
        | cons a as =>
          rw [List.dropLast_cons₂] at hq'
          rcases List.mem_cons.mp hq' with rfl | hmem
          · exact h
          · have := ih q'
            rw [h2] at this
            exact this hmem

theorem cascadeRun_trace_take (S : String → Except String (List JMatch))
    (qs : List String) :
    (cascadeRun S qs).2 = qs.take (cascadeRun S qs).2.length := by
  induction qs with
  | nil => simp [cascadeRun]
  | cons q rest ih =>
    simp only [cascadeRun]
    cases h : S q with
    | error e => simp
    | ok ms =>
      cases ms with
      | cons m ms2 => simp
      | nil =>
        rcases h2 : cascadeRun S rest with ⟨r2, t2⟩
        rw [h2] at ih
        simpa using ih

/-! ## The claims -/

/-- C1: `_fetch_url` always invokes the session strategy first; exactly
when the session strategy raises an error whose text contains `'403'` or
`'Forbidden'` does it invoke the curl strategy, once, with the same URL,
credential and timeout, returning the curl outcome (result or error);
any other session error propagates with no curl invocation. -/
theorem c1_fetcher_fallback (S C : Request → Except String String) (url : String)
    (cred : Option String) (t : Nat) :
    ((fetch_url S C url cred t).2.head? = some (Ev.session ⟨url, cred, t⟩))
    ∧ (∀ b, S ⟨url, cred, t⟩ = .ok b →
        fetch_url S C url cred t = (.ok b, [Ev.session ⟨url, cred, t⟩]))
    ∧ (∀ msg, S ⟨url, cred, t⟩ = .error msg → isAccessDenied msg = true →
        fetch_url S C url cred t
          = (C ⟨url, cred, t⟩, [Ev.session ⟨url, cred, t⟩, Ev.curl ⟨url, cred, t⟩]))
    ∧ (∀ msg, S ⟨url, cred, t⟩ = .error msg → isAccessDenied msg = false →
        fetch_url S C url cred t = (.error msg, [Ev.session ⟨url, cred, t⟩]))
    ∧ ((Ev.curl ⟨url, cred, t⟩ ∈ (fetch_url S C url cred t).2)
        ↔ ∃ msg, S ⟨url, cred, t⟩ = .error msg ∧ isAccessDenied msg = true) := by
  cases h : S ⟨url, cred, t⟩ with
  | ok b => simp [fetch_url, h]
  | error msg =>
    by_cases hd : isAccessDenied msg
    · simp [fetch_url, h, hd]
    · simp [fetch_url, h, hd]

/-- Witness for C1: a concrete access-denied session error routes the
call to curl and returns its body. -/
theorem c1_fetcher_fallback_witness :
    fetch_url sessionDenied curlOk "https://www.drivethrufiction.com" none 30
      = (.ok "curl-body",
         [Ev.session ⟨"https://www.drivethrufiction.com", none, 30⟩,
          Ev.curl ⟨"https://www.drivethrufiction.com", none, 30⟩]) :=
  (c1_fetcher_fallback sessionDenied curlOk "https://www.drivethrufiction.com"
      none 30).2.2.1 "HTTP Error 403: Forbidden" rfl (by decide)

/-- Counterexample for C2: a search round trip of the Resolver and the
detail round trip of the Record Mapper each consist of a single direct
curl invocation — no session-strategy event occurs, although the
session-first fetcher always begins with one (see the C1 theorem). -/
theorem c2_counterexample :
    (api_search emptyNet none "Dracula" 30).2
      = [Ev.curl ⟨searchUrl "Dracula", none, 30⟩]
    ∧ (get_product_details emptyNet none (Json.str "123") 30).2
      = [Ev.curl ⟨detailUrl (Json.str "123"), none, 30⟩]
    ∧ Ev.session ⟨searchUrl "Dracula", none, 30⟩
        ∉ (api_search emptyNet none "Dracula" 30).2 := by
  refine ⟨rfl, rfl, ?_⟩
  decide

/-- The detail fetch wrapper issues exactly one curl event. -/
theorem runDetails_all_curl (C : CurlNet) (cred : Option String) (pid : Json)
    (t : Nat) : (runDetails C cred pid t).2.all isCurlEv = true := by
  unfold runDetails get_product_details
  cases hC : C ⟨detailUrl pid, cred, t⟩ with
  | error e => simp [hC, isCurlEv]
  | ok root => cases hm : mapDetail pid root <;> simp [hC, hm, isCurlEv]

/-- C2 as amended: every network round trip issued by `identify` — its
search candidates and its detail fetch — goes directly through the
external-process (curl) strategy; the session-first `_fetch_url` logic
is not invoked by these components. -/
theorem c2_amended_all_curl (C : CurlNet) (cred : Option String) (ids : Option Json)
    (title : Option String) (authors : Option (List String)) (t : Nat) :
    (identify C cred ids title authors t).2.all isCurlEv = true := by
  unfold identify
  by_cases hid : (ids.getD .null).truthy
  · simp only [hid, if_true]
    exact runDetails_all_curl C cred (ids.getD .null) t
  · simp only [hid, Bool.false_eq_true, if_false]
    by_cases hq : create_query title authors == ""
    · simp only [hq, if_true, List.all_nil]
    · simp only [hq, Bool.false_eq_true, if_false]
      rcases h : identifySearch (apiSearchFn C cred t) title authors with ⟨res, qs⟩
      cases res with
      | error e => simp [List.all_eq_true, isCurlEv]
      | ok ms =>
        cases ms with
        | nil => simp [List.all_eq_true, isCurlEv]
        | cons m rest =>
          have hall := runDetails_all_curl C cred m.id t
          simp only [List.all_eq_true] at hall ⊢
          intro x hx
          simp only [List.mem_append, List.mem_map] at hx
          rcases hx with hx | hx
          · rcases hx with ⟨q, hq2, rfl⟩
            rfl
          · exact hall x hx

/-- Counterexample for C3: with an absent title and a non-empty author
list, the query is the first author — non-empty — and `identify` issues
three search round trips (the author-only query, then the empty
strategy-2 and strategy-3 queries). -/
theorem c3_counterexample :
    create_query none (some ["Bram Stoker"]) = "Bram Stoker"
    ∧ (identify emptyNet none none none (some ["Bram Stoker"]) 30).2
        = [Ev.curl ⟨searchUrl "Bram Stoker", none, 30⟩,
           Ev.curl ⟨searchUrl "", none, 30⟩,
           Ev.curl ⟨searchUrl "", none, 30⟩]
    ∧ (identify emptyNet none none none (some ["Bram Stoker"]) 30).2 ≠ [] := by
  refine ⟨rfl, rfl, ?_⟩
  decide

/-- C3 as amended: when the title is empty or absent and the author
list is empty or absent as well, the query is empty and `identify`
returns without issuing any network call; when the title is empty or
absent but the author list is non-empty, the query is its first
element. -/
theorem c3_amended_empty_query (C : CurlNet) (cred : Option String)
    (title : Option String) (authors : Option (List String)) (t : Nat) :
    titleFalsy title = true →
    ((authorsFalsy authors = true →
        create_query title authors = ""
        ∧ identify C cred none title authors t = (none, []))
     ∧ (∀ a rest, authors = some (a :: rest) → create_query title authors = a)) := by
  intro ht
  have hq : ∀ (as : Option (List String)), authorsFalsy as = true →
      create_query title as = "" := by
    intro as ha
    cases title with
    | none =>
      cases as with
      | none => rfl
      | some l =>
        cases l with
        | nil => rfl
        | cons a r => simp [authorsFalsy, authorsTruthy] at ha
    | some s =>
      have hs : s = "" := by simpa [titleFalsy] using ht
      subst hs
      cases as with
      | none => rfl
      | some l =>
        cases l with
        | nil => rfl
        | cons a r => simp [authorsFalsy, authorsTruthy] at ha
  constructor
  · intro ha
    refine ⟨hq authors ha, ?_⟩
    unfold identify
    simp [hq authors ha, Json.truthy]
  · intro a rest hre
    subst hre
    cases title with
    | none => simp [create_query, String.intercalate, String.intercalate.go]
    | some s =>
      have hs : s = "" := by simpa [titleFalsy] using ht
      subst hs
      simp [create_query, String.intercalate, String.intercalate.go]

/-- Witness for C3's amended claim at a concrete input. -/
theorem c3_amended_empty_query_witness :
    create_query none none = ""
    ∧ identify emptyNet none none none none 30 = (none, []) :=
  (c3_amended_empty_query emptyNet none none none 30 rfl).1 rfl

/-- C4: the cascade tries candidates strictly in order and stops at the
first candidate whose filtered match list is non-empty: (1) when the
strategy-1 query already yields a match, it is the only query ever
issued; (2) every issued query except possibly the last yielded zero
filtered matches; (3) the issued queries are an initial prefix of the
candidate sequence, in order. -/
theorem c4_cascade_short_circuit (S : String → Except String (List JMatch)) :
    (∀ title authors m ms, ¬(create_query title authors == "") = true →
       S (create_query title authors) = .ok (m :: ms) →
       identifySearch S title authors
         = (.ok (m :: ms), [create_query title authors]))
    ∧ (∀ title authors q,
        q ∈ (identifySearch S title authors).2.dropLast → S q = .ok [])
    ∧ (∀ title authors, (identifySearch S title authors).2
        = (candidates title authors).take (identifySearch S title authors).2.length) := by
  refine ⟨?_, ?_, ?_⟩
  · intro title authors m ms hq hS
    rw [identifySearch_eq_cascadeRun, if_neg hq]
    show cascadeRun S (candidates title authors) = _
    unfold candidates
    simp only [List.cons_append]
    simp [cascadeRun, hS]
  · intro title authors q hmem
    rw [identifySearch_eq_cascadeRun] at hmem
    by_cases hq : create_query title authors == ""
    · rw [if_pos hq] at hmem
      simp at hmem
    · rw [if_neg hq] at hmem
      exact cascadeRun_dropLast_empty S (candidates title authors) q hmem
  · intro title authors
    rw [identifySearch_eq_cascadeRun]
    by_cases hq : create_query title authors == ""
    · simp [hq]
    · rw [if_neg hq]
      exact cascadeRun_trace_take S (candidates title authors)

/-- Witness for C4: a search that matches the strategy-1 query
`"Dracula"` issues exactly that one round trip. -/
theorem c4_cascade_short_circuit_witness :
    identifySearch searchHitFirst (some "Dracula") none
      = (.ok [⟨Json.str "d1", "Dracula"⟩], ["Dracula"]) :=
  (c4_cascade_short_circuit searchHitFirst).1 (some "Dracula") none
    ⟨Json.str "d1", "Dracula"⟩ [] (by decide) rfl

/-- An item kept by the filter never contains the block term. -/
theorem parseItem_no_block (item : Json) (m : JMatch)
    (h : parseItem item = .ok (some m)) :
    listContainsSub blockTerm (pyLower m.name).data = false := by
  unfold parseItem at h
  repeat' split at h
  all_goals try simp_all
  all_goals repeat' split at h
  all_goals simp_all
  all_goals rw [← h]
  all_goals simp_all

/-- No match surviving `collectMatches` contains the block term. -/
theorem collectMatches_no_block (items : List Json) (ms : List JMatch)
    (h : collectMatches items = .ok ms) :
    ∀ m ∈ ms, listContainsSub blockTerm (pyLower m.name).data = false := by
  induction items generalizing ms with
  | nil =>
    simp only [collectMatches, Except.ok.injEq] at h
    subst h; simp
  | cons it rest ih =>
    simp only [collectMatches] at h
    cases hp : parseItem it with
    | error e => rw [hp] at h; simp at h
    | ok o =>
      rw [hp] at h
      cases o with
      | none => exact ih ms h
      | some m0 =>
        cases hc : collectMatches rest with
        | error e => rw [hc] at h; simp at h
        | ok ms2 =>
          rw [hc] at h
          simp only [Except.ok.injEq] at h
          subst h
          intro m hm
          rcases List.mem_cons.mp hm with rfl | hm2
          · exact parseItem_no_block it m hp
          · exact ih ms2 hc m hm2

/-- C5: matches whose display name contains the block term
(`'fantasy grounds'`, case-insensitive substring) are removed before
the any-match test — no filtered result ever contains it — and in the
worked example (a `"Grimoire - Fantasy Grounds Edition"` match followed
by a `"Grimoire"` match) the filter keeps only `"Grimoire"` and
resolution returns its identifier `"g2"`. -/
theorem c5_block_term_filter :
    (∀ root ms, parseSearchItems root = Except.ok ms →
       ∀ m ∈ ms, listContainsSub blockTerm (pyLower m.name).data = false)
    ∧ parseSearchItems grimoireRoot
        = Except.ok [⟨Json.str "g2", "Grimoire"⟩]
    ∧ (identify grimoireNet none none (some "Grimoire") none 30).1
        = some (grimoireRec, none) := by
  refine ⟨?_, by rfl, by rfl⟩
  intro root ms h m hm
  unfold parseSearchItems at h
  repeat' split at h
  all_goals first
    | exact collectMatches_no_block _ ms h m hm
    | (simp only [Except.ok.injEq] at h; subst h; simp at hm)
    | simp at h

/-- Witness for C5: the surviving `"Grimoire"` match is block-term
free. -/
theorem c5_block_term_filter_witness :
    listContainsSub blockTerm (pyLower "Grimoire").data = false :=
  c5_block_term_filter.1 grimoireRoot [⟨Json.str "g2", "Grimoire"⟩]
    c5_block_term_filter.2.1 ⟨Json.str "g2", "Grimoire"⟩ (by simp)

/-- Counterexample for C6: a five-word title that the cleaning step
leaves unchanged.  Candidate #4 (its first four words) is never tried —
the only query issued is the title itself — because strategy 4 is
nested inside the `clean_title != title` branch, although the cleaned
title has more than four words. -/
theorem c6_counterexample :
    clean_title (some "alpha beta gamma delta epsilon")
        = "alpha beta gamma delta epsilon"
    ∧ (pySplitStr "alpha beta gamma delta epsilon").length = 5
    ∧ identifySearch searchAllEmpty (some "alpha beta gamma delta epsilon") none
        = (.ok [], ["alpha beta gamma delta epsilon"])
    ∧ "alpha beta gamma delta"
        ∉ (identifySearch searchAllEmpty
            (some "alpha beta gamma delta epsilon") none).2 := by
  refine ⟨rfl, rfl, rfl, ?_⟩
  decide

/-- C6 as amended: candidate #4 is tried only when the cleaned title
differs from the original title; (1) when the cleaned title differs,
has more than four words, and every search yields zero matches, its
first four words are issued as a query; (2) when cleaning leaves the
title unchanged, at most the two first candidates are ever issued,
whatever the word count. -/
theorem c6_amended_candidate4 (S : String → Except String (List JMatch))
    (title : Option String) (authors : Option (List String)) :
    ((∀ q, S q = .ok []) →
      neTitle (clean_title title) title = true →
      (pySplitStr (clean_title title)).length > 4 →
      String.intercalate " " ((pySplitStr (clean_title title)).take 4)
        ∈ (identifySearch S title authors).2
        ∨ create_query title authors = "")
    ∧ (neTitle (clean_title title) title = false →
        (identifySearch S title authors).2.length ≤ 2) := by
  constructor
  · intro hS hne hw
    by_cases hq : create_query title authors == ""
    · right; simpa using hq
    · left
      rw [identifySearch_eq_cascadeRun, if_neg hq,
        cascadeRun_allEmpty S hS (candidates title authors)]
      unfold candidates
      simp [hne, hw]
  · intro hne
    rw [identifySearch_eq_cascadeRun]
    by_cases hq : create_query title authors == ""
    · simp [hq]
    · rw [if_neg hq]
      have htake := cascadeRun_trace_take S (candidates title authors)
      have hlen : (candidates title authors).length ≤ 2 := by
        unfold candidates
        simp only [hne]
        by_cases ha : authorsTruthy authors
            && (create_query title (some []) != create_query title authors)
        · simp [ha]
        · simp [ha]
      calc (cascadeRun S (candidates title authors)).2.length
          = ((candidates title authors).take
              (cascadeRun S (candidates title authors)).2.length).length := by
            rw [← htake]
        _ ≤ (candidates title authors).length := by
            rw [List.length_take]
            exact min_le_right _ _
        _ ≤ 2 := hlen

/-- Witness for C6's amended claim: cleaning
`"Spellcraft Vol. 2 alpha beta gamma delta"` yields the five-word
`"Spellcraft alpha beta gamma delta"`, and with all searches empty the
four-word candidate `"Spellcraft alpha beta gamma"` is issued. -/
theorem c6_amended_candidate4_witness :
    String.intercalate " "
        ((pySplitStr (clean_title (some "Spellcraft Vol. 2 alpha beta gamma delta"))).take 4)
      ∈ (identifySearch searchAllEmpty
          (some "Spellcraft Vol. 2 alpha beta gamma delta") none).2
    ∨ create_query (some "Spellcraft Vol. 2 alpha beta gamma delta") none = "" :=
  (c6_amended_candidate4 searchAllEmpty
      (some "Spellcraft Vol. 2 alpha beta gamma delta") none).1
    (fun _ => rfl) (by decide) (by decide)

/-- C7: the cleaning operation strips case-insensitive `v`/`ver`/`vol`
version markers (optional dot, dotted numeric version), removes
parenthesized and bracketed spans, and collapses whitespace runs; in
particular `"Spellcraft Vol. 2 (2020 Edition)"` cleans to exactly
`"Spellcraft"`.  Each clause is checked on a concrete instance
exercising it: lowercase and uppercase markers, dotted versions, both
bracket kinds, and whitespace collapsing. -/
theorem c7_clean_title :
    clean_title_str "Spellcraft Vol. 2 (2020 Edition)" = "Spellcraft"
    ∧ clean_title_str "Dungeon v2" = "Dungeon"
    ∧ clean_title_str "Dungeon VER. 1.5 Guide" = "Dungeon Guide"
    ∧ clean_title_str "Archive vol 3.2.1 Set" = "Archive Set"
    ∧ clean_title_str "Tome [PDF] (Deluxe)" = "Tome"
    ∧ clean_title_str "A  B   C" = "A B C"
    ∧ clean_title_str "v12x" = "v12x"
    ∧ clean_title_str "Avol 2" = "Avol 2" :=
  ⟨rfl, rfl, rfl, rfl, rfl, rfl, rfl, rfl⟩

/-- C8: the worked detail envelope — nested description name
`"Dracula"`, authors `["Bram Stoker"]`, `dateAvailable`
`"1897-05-26T00:00:00-00:00"`, and an `included` entry of type
`Publisher` named `"Archibald Constable"` — maps without error to a
record with exactly the title, authors, publication date and publisher
populated (comments empty, no cover entry; the identifier is the
supplied catalog id, always set). -/
theorem c8_dracula_roundtrip :
    mapDetail (Json.str "drac1") draculaRoot = .ok (draculaRec, none) := rfl

/-- C9: a missing or unparseable `dateAvailable` never fails the
mapping.  For every product id and every attribute dict (the envelope's
`attributes`, with any fields whatsoever) whose `description` field —
if present — is a dict, if the date step cannot produce a date (the
field is absent, falsy, a non-string, or an unparseable string), the
record is still produced and its publication-date field is unset. -/
theorem c9_date_failures_absorbed (pid : Json)
    (attrsFields : List (String × Json)) :
    isObjJ ((attrsFields.lookup "description").getD (Json.obj [])) = true →
    pyDate ((attrsFields.lookup "dateAvailable").getD Json.null) = none →
    (mapDetail pid
        (Json.obj [("data", Json.obj [("attributes", Json.obj attrsFields)])])).isOk
      = true
    ∧ pubdateOf (mapDetail pid
        (Json.obj [("data", Json.obj [("attributes", Json.obj attrsFields)])]))
      = none := by
  intro hdesc hdate
  unfold mapDetail
  cases hd : (attrsFields.lookup "description").getD (Json.obj []) with
  | obj dfs =>
    simp [pyGetD, scanIncluded, hd, hdate, pubdateOf, pure, Except.pure,
      bind, Except.bind, List.lookup, Except.isOk, Except.toBool]
  | null => rw [hd] at hdesc; simp [isObjJ] at hdesc
  | bool b => rw [hd] at hdesc; simp [isObjJ] at hdesc
  | num n => rw [hd] at hdesc; simp [isObjJ] at hdesc
  | str s => rw [hd] at hdesc; simp [isObjJ] at hdesc
  | arr xs => rw [hd] at hdesc; simp [isObjJ] at hdesc

/-- Witness for C9: an envelope whose `dateAvailable` is the
unparseable string `"not-a-date"` still maps, with no date set. -/
theorem c9_date_failures_absorbed_witness :
    (mapDetail (Json.str "9")
        (Json.obj [("data", Json.obj [("attributes", Json.obj
           [("dateAvailable", Json.str "not-a-date")])])])).isOk = true
    ∧ pubdateOf (mapDetail (Json.str "9")
        (Json.obj [("data", Json.obj [("attributes", Json.obj
           [("dateAvailable", Json.str "not-a-date")])])]))
      = none :=
  c9_date_failures_absorbed (Json.str "9")
    [("dateAvailable", Json.str "not-a-date")] (by decide) (by decide)

/-- Counterexample for C10: the cover cache is an attribute of the
plugin instance with no clearing operation anywhere in the code.  A
cover URL registered while identifying one book (here via the detail
envelope's image path) is returned by every later
`get_cached_cover_url` lookup on the same instance — including lookups
belonging to a later resolution session, since nothing separates
sessions in the instance's state. -/
theorem c10_counterexample :
    (identify coverNet none (some (Json.str "55")) none none 30).1
      = some (coverRec,
          some ("55", "https://www.drivethrufiction.com/images/8957/240640.jpg"))
    ∧ get_cached_cover_url
        (cache_cover_url []
          "https://www.drivethrufiction.com/images/8957/240640.jpg" "55")
        (some "55")
      = some "https://www.drivethrufiction.com/images/8957/240640.jpg" :=
  ⟨rfl, rfl⟩

/-- C10 as amended: the cover cache is scoped to the plugin instance
and is in-memory only; within one instance, (1) a freshly cached URL is
immediately visible under its id, and (2) caching never removes an
existing entry — so URLs stay visible to all later lookups on the same
instance, and per-session scoping holds only if the host uses a fresh
instance per session. -/
theorem c10_amended_instance_cache (cache : List (String × String))
    (url pid q u : String) :
    (pid ≠ "" → get_cached_cover_url (cache_cover_url cache url pid) (some pid)
        = some url)
    ∧ (get_cached_cover_url cache (some q) = some u →
        (get_cached_cover_url (cache_cover_url cache url pid) (some q)).isSome
          = true) := by
  constructor
  · intro hp
    simp [get_cached_cover_url, cache_cover_url, List.lookup, hp]
  · intro hq
    simp only [get_cached_cover_url] at hq ⊢
    by_cases hqe : q == ""
    · rw [if_pos hqe] at hq
      simp at hq
    · rw [if_neg hqe] at hq ⊢
      simp only [cache_cover_url, List.lookup]
      by_cases hpq : q == pid
      · simp [hpq]
      · simp [hpq, hq]

/-- Witness for C10's amended claim. -/
theorem c10_amended_instance_cache_witness :
    get_cached_cover_url (cache_cover_url [] "u1" "99") (some "99") = some "u1" :=
  (c10_amended_instance_cache [] "u1" "99" "99" "u1").1 (by decide)
